import Mathlib

/-!
Verification of `epyt_control.controllers.lqr.linear_quadratic_regulator`
(`src/epyt_control/controllers/lqr.py`), the finite-horizon discrete-time
LQR solver.

Embedding choices:
* numpy arrays are modelled as a shape list together with row-major rational
  data (`NDArray`); the exact rationals stand in for IEEE floats, so equalities
  proved here are the exact-arithmetic counterparts of the numerical ones.
* `np.linalg.pinv` is an external library routine; it is modelled as an
  arbitrary total function parameter (its Moore-Penrose behaviour, where a
  claim needs it, is an explicit hypothesis or a concrete instance).
* The module `epyt_control.controllers.utils` (providing `is_mat_spd` and
  `is_mat_spsd`) is not among the sources; those two checks are modelled from
  the spec, as documented on their definitions.
-/

namespace EpytControl

/-- Model of a `numpy.ndarray` holding rationals: its shape and its entries in
row-major order. -/
structure NDArray where
  shape : List ℕ
  data : List ℚ
  deriving DecidableEq, Repr

/-- The number of axes of the array (`a.ndim`). -/
def NDArray.ndim (a : NDArray) : ℕ := a.shape.length

/-- Entry `(i, j)` of a 2-dimensional array, row-major. -/
def NDArray.entry (a : NDArray) (i j : ℕ) : ℚ :=
  a.data.getD (i * a.shape.getD 1 0 + j) 0

/-- The rows of a 2-dimensional array as a list of lists. -/
def NDArray.rows (a : NDArray) : List (List ℚ) :=
  (List.range (a.shape.getD 0 0)).map fun i =>
    (List.range (a.shape.getD 1 0)).map fun j => a.entry i j

/-- A Python value passed in an array-typed argument position: either an
actual `numpy.ndarray` or some other object (which fails `isinstance`). -/
inductive PyObj where
  | ndarray (a : NDArray)
  | other
  deriving DecidableEq

/-- Whether `isinstance(x, np.ndarray)` holds. -/
def PyObj.isNDArray : PyObj → Bool
  | .ndarray _ => true
  | .other => false

/-- The underlying array of a `PyObj` (empty array when it is not one; only
used after validation has established it is one). -/
def PyObj.toArr : PyObj → NDArray
  | .ndarray a => a
  | .other => ⟨[], []⟩

/-- A Python value passed in the `time_horizon` argument position.  `pyBool`
is kept separate from `pyInt` because the Python `bool` is a subclass of `int`
(so `isinstance(True, int)` holds), while `numpy.int64` is not a subclass
of the built-in `int`. -/
inductive PyVal where
  | pyInt (n : ℤ)
  | pyBool (b : Bool)
  | npInt64 (n : ℤ)
  deriving DecidableEq

/-- Whether `isinstance(x, int)` holds: true for `int` and `bool` (a subclass
of `int` in Python), false for `numpy.int64`. -/
def PyVal.isInt : PyVal → Bool
  | .pyInt _ => true
  | .pyBool _ => true
  | .npInt64 _ => false

/-- The integer value of the Python object (`True == 1`, `False == 0`). -/
def PyVal.toInt : PyVal → ℤ
  | .pyInt n => n
  | .pyBool b => if b then 1 else 0
  | .npInt64 n => n

/-- Determinant of a list-of-lists matrix by Laplace expansion along the
first row, with an explicit fuel argument so that the definition is
structurally recursive (and hence evaluates inside `decide`). -/
def detFuel : ℕ → List (List ℚ) → ℚ
  | _, [] => 1
  | 0, _ :: _ => 0
  | fuel + 1, r :: rest =>
      ((List.range r.length).map fun j =>
        (-1 : ℚ) ^ j * r.getD j 0 *
          detFuel fuel (rest.map fun row => row.eraseIdx j)).sum

/-- Determinant of a square list-of-lists matrix. -/
def detL (m : List (List ℚ)) : ℚ := detFuel m.length m

/-- The submatrix of a list-of-lists matrix given by a list of row/column
indices (used for principal minors). -/
def submatrixL (m : List (List ℚ)) (idx : List ℕ) : List (List ℚ) :=
  idx.map fun i => idx.map fun j => (m.getD i []).getD j 0

/-- All subsets of `{0, ..., k-1}` as sorted index lists (used to enumerate
the principal minors). -/
def indexSubsets : ℕ → List (List ℕ)
  | 0 => [[]]
  | k + 1 => indexSubsets k ++ (indexSubsets k).map fun s => s ++ [k]

/-- Whether a 2-dimensional array is symmetric. -/
def NDArray.isSymmetric (a : NDArray) : Bool :=
  (List.range (a.shape.getD 0 0)).all fun i =>
    (List.range (a.shape.getD 0 0)).all fun j =>
      decide (a.entry i j = a.entry j i)

/-- Modelled from the spec: `is_mat_spsd` from `epyt_control.controllers.utils`
(that module is not among the sources).  Per spec §4.1 it checks that the
matrix is symmetric and positive semi-definite via an eigenvalue-sign test
with a small tolerance.  In exact rational arithmetic this is: 2-dimensional,
square, symmetric, and every principal minor nonnegative (for a symmetric
matrix this is equivalent to all eigenvalues being ≥ 0). -/
def is_mat_spsd (a : NDArray) : Bool :=
  a.ndim == 2 && a.shape.getD 0 0 == a.shape.getD 1 0 && a.isSymmetric &&
    ((indexSubsets (a.shape.getD 0 0)).all fun s =>
      decide (0 ≤ detL (submatrixL a.rows s)))

/-- Modelled from the spec: `is_mat_spd` from `epyt_control.controllers.utils`
(that module is not among the sources).  Per spec §4.1 it checks that the
matrix is symmetric and positive definite via an eigenvalue-sign test.  In
exact rational arithmetic this is: 2-dimensional, square, symmetric, and every
leading principal minor positive (the Sylvester criterion). -/
def is_mat_spd (a : NDArray) : Bool :=
  a.ndim == 2 && a.shape.getD 0 0 == a.shape.getD 1 0 && a.isSymmetric &&
    ((List.range (a.shape.getD 0 0)).all fun k =>
      decide (0 < detL (submatrixL a.rows (List.range (k + 1)))))

/-- One constructor per `raise` site of `linear_quadratic_regulator`
(`lqr.py`, lines 46-97), in source order. -/
inductive LqrError where
  | currentStateType
  | currentStateNotVector
  | stateCostType
  | stateCostNotSpsd
  | stateCostShape
  | actionCostType
  | actionCostNotSpd
  | stateTransType
  | stateTransShape
  | actionTransType
  | actionTransShape
  | horizonType
  | horizonNotPositive
  | finalCostType
  | finalCostNotSpsd
  | finalCostShape
  deriving DecidableEq, Repr

/-- The validation checks of `lqr.py` lines 46-76, in source order: the
checks on `current_state`, `state_cost_mat`, `action_cost_mat`,
`state_transition_mat` and `action_transition_mat`, all of which precede the
`time_horizon` checks.  Returns the state dimension `n` on success. -/
def validateArrays (current_state state_cost_mat action_cost_mat
    state_transition_mat action_transition_mat : PyObj) : Except LqrError ℕ :=
  if !current_state.isNDArray then .error .currentStateType
  else if current_state.toArr.ndim ≠ 1 then .error .currentStateNotVector
  else if !state_cost_mat.isNDArray then .error .stateCostType
  else if !is_mat_spsd state_cost_mat.toArr then .error .stateCostNotSpsd
  else if state_cost_mat.toArr.ndim ≠ 2 ∨
      state_cost_mat.toArr.shape.getD 0 0 ≠ current_state.toArr.shape.getD 0 0 then
    .error .stateCostShape
  else if !action_cost_mat.isNDArray then .error .actionCostType
  else if !is_mat_spd action_cost_mat.toArr then .error .actionCostNotSpd
  else if !state_transition_mat.isNDArray then .error .stateTransType
  else if state_transition_mat.toArr.shape ≠
      [current_state.toArr.shape.getD 0 0, current_state.toArr.shape.getD 0 0] then
    .error .stateTransShape
  else if !action_transition_mat.isNDArray then .error .actionTransType
  else if action_transition_mat.toArr.shape.getD 0 0 ≠ current_state.toArr.shape.getD 0 0 ∨
      action_transition_mat.toArr.ndim ≠ 2 then .error .actionTransShape
  else .ok (current_state.toArr.shape.getD 0 0)

/-- The `time_horizon` checks of `lqr.py` lines 77-81: `isinstance(.., int)`
and positivity.  Returns the horizon as a natural number on success. -/
def checkHorizon (time_horizon : PyVal) : Except LqrError ℕ :=
  if !time_horizon.isInt then .error .horizonType
  else if time_horizon.toInt ≤ 0 then .error .horizonNotPositive
  else .ok time_horizon.toInt.toNat

/-- The `final_state_cost_mat` handling of `lqr.py` lines 82-97: when the
argument is supplied it is validated, otherwise `state_cost_mat` is used.
Returns the resolved final-state cost array. -/
def resolveFinalCost (n : ℕ) (state_cost_mat : PyObj) :
    Option PyObj → Except LqrError NDArray
  | some f =>
      if !f.isNDArray then .error .finalCostType
      else if !is_mat_spsd f.toArr then .error .finalCostNotSpsd
      else if f.toArr.ndim ≠ 2 ∨ f.toArr.shape.getD 0 0 ≠ n then .error .finalCostShape
      else .ok f.toArr
  | none => .ok state_cost_mat.toArr

/-- The complete input validation of `linear_quadratic_regulator`
(`lqr.py`, lines 46-97): all checks in source order.  Returns the state
dimension, the horizon and the resolved final-state cost array. -/
def validate (current_state state_cost_mat action_cost_mat
    state_transition_mat action_transition_mat : PyObj) (time_horizon : PyVal)
    (final_state_cost_mat : Option PyObj) : Except LqrError (ℕ × ℕ × NDArray) :=
  match validateArrays current_state state_cost_mat action_cost_mat
      state_transition_mat action_transition_mat with
  | .error e => .error e
  | .ok n =>
      match checkHorizon time_horizon with
      | .error e => .error e
      | .ok T =>
          match resolveFinalCost n state_cost_mat final_state_cost_mat with
          | .error e => .error e
          | .ok qf => .ok (n, T, qf)

/-- The data of a (shape-consistent) validated LQR problem: state dimension
`n`, action dimension `m`, the cost and transition matrices, the horizon, the
initial state, and the pseudo-inverse routine (`np.linalg.pinv` is an external
library call, modelled as a total function parameter). -/
structure LqrData (n m : ℕ) where
  pinv : Matrix (Fin m) (Fin m) ℚ → Matrix (Fin m) (Fin m) ℚ
  Q : Matrix (Fin n) (Fin n) ℚ
  R : Matrix (Fin m) (Fin m) ℚ
  A : Matrix (Fin n) (Fin n) ℚ
  B : Matrix (Fin n) (Fin m) ℚ
  Qf : Matrix (Fin n) (Fin n) ℚ
  T : ℕ
  x0 : Fin n → ℚ

variable {n m : ℕ}

/-- The body of the backward loop of `lqr.py` lines 102-107:
`P[t-1] = Q + Aᵀ P[t] A − (Aᵀ P[t] B) · pinv(R + Bᵀ P[t] B) · (Bᵀ P[t] A)`. -/
def LqrData.riccatiStep (d : LqrData n m) (P : Matrix (Fin n) (Fin n) ℚ) :
    Matrix (Fin n) (Fin n) ℚ :=
  d.Q + d.A.transpose * P * d.A -
    (d.A.transpose * P * d.B) *
      d.pinv (d.R + d.B.transpose * P * d.B) * (d.B.transpose * P * d.A)

/-- The auxiliary cost-to-go sequence counted from the terminal step:
`below 0 = Qf` and `below (k+1) = riccatiStep (below k)`. -/
def LqrData.below (d : LqrData n m) : ℕ → Matrix (Fin n) (Fin n) ℚ
  | 0 => d.Qf
  | k + 1 => d.riccatiStep (d.below k)

/-- Cost-to-go `P[t]` of `lqr.py` lines 99-107: the matrix at time index `t`,
with `P[T] = Qf` and `P[t-1] = riccatiStep P[t]` for `t = T, ..., 1`. -/
def LqrData.costToGo (d : LqrData n m) (t : ℕ) : Matrix (Fin n) (Fin n) ℚ :=
  d.below (d.T - t)

/-- The feedback gain of `lqr.py` lines 112-114:
`K_t = −pinv(R + Bᵀ P[t+1] B) · Bᵀ P[t+1] A`. -/
def LqrData.gain (d : LqrData n m) (t : ℕ) : Matrix (Fin m) (Fin n) ℚ :=
  -d.pinv (d.R + d.B.transpose * d.costToGo (t + 1) * d.B) *
    d.B.transpose * d.costToGo (t + 1) * d.A

/-- The predicted state trajectory of `lqr.py` lines 110-116:
`x_0 = current_state` and `x_{t+1} = A x_t + B (K_t x_t)`. -/
def LqrData.state (d : LqrData n m) : ℕ → (Fin n → ℚ)
  | 0 => d.x0
  | t + 1 => d.A.mulVec (d.state t) + d.B.mulVec ((d.gain t).mulVec (d.state t))

/-- The control action of `lqr.py` line 115: `u_t = K_t x_t`. -/
def LqrData.action (d : LqrData n m) (t : ℕ) : Fin m → ℚ :=
  (d.gain t).mulVec (d.state t)

/-- The returned action list of `lqr.py` lines 109-118: `[u_0, ..., u_{T-1}]`. -/
def LqrData.actions (d : LqrData n m) : List (Fin m → ℚ) :=
  (List.range d.T).map d.action

/-- The returned action list with each action spelled out as a plain list of
`m` rationals (the 1-dimensional numpy arrays the caller receives). -/
def LqrData.actionsL (d : LqrData n m) : List (List ℚ) :=
  (List.range d.T).map fun t => List.ofFn (d.action t)

/-- Read a validated 2-dimensional array as an `r × c` matrix (row-major,
using the column stride of the array itself). -/
def NDArray.toMat (a : NDArray) (r c : ℕ) : Matrix (Fin r) (Fin c) ℚ :=
  Matrix.of fun i j => a.entry i j

/-- Read a validated 1-dimensional array as a length-`k` vector. -/
def NDArray.toVec (a : NDArray) (k : ℕ) : Fin k → ℚ :=
  fun i => a.data.getD i 0

/-- The full pipeline of `linear_quadratic_regulator` (`lqr.py` lines 10-118)
on shape-consistent inputs: validation (lines 46-97) followed by the backward
recursion and the forward rollout (lines 99-118).  `target_state` is accepted
(second argument, as in the source) and never used.  `pinv` models
`np.linalg.pinv` at every matrix size.  (On inputs whose `action_cost_mat`
dimension disagrees with the column count of `action_transition_mat` —
a combination the validator lets through — the original raises inside the
recursion; runs of that kind are outside this model.) -/
def linear_quadratic_regulator
    (pinv : (k : ℕ) → Matrix (Fin k) (Fin k) ℚ → Matrix (Fin k) (Fin k) ℚ)
    (current_state target_state : PyObj)
    (state_cost_mat action_cost_mat state_transition_mat
      action_transition_mat : PyObj) (time_horizon : PyVal)
    (final_state_cost_mat : Option PyObj) : Except LqrError (List (List ℚ)) :=
  match validate current_state state_cost_mat action_cost_mat
      state_transition_mat action_transition_mat time_horizon
      final_state_cost_mat with
  | .error e => .error e
  | .ok (n, T, qf) =>
      let m := action_transition_mat.toArr.shape.getD 1 0
      let d : LqrData n m :=
        { pinv := pinv m
          Q := state_cost_mat.toArr.toMat n n
          R := action_cost_mat.toArr.toMat m m
          A := state_transition_mat.toArr.toMat n n
          B := action_transition_mat.toArr.toMat n m
          Qf := qf.toMat n n
          T := T
          x0 := current_state.toArr.toVec n }
      .ok d.actionsL

/-- The four Penrose conditions characterising the Moore-Penrose
pseudo-inverse (the contract of `np.linalg.pinv` on square rational
matrices). -/
def IsMoorePenrosePinv {k : ℕ} (M Mp : Matrix (Fin k) (Fin k) ℚ) : Prop :=
  M * Mp * M = M ∧ Mp * M * Mp = Mp ∧
    (M * Mp).transpose = M * Mp ∧ (Mp * M).transpose = Mp * M

/-- The Moore-Penrose pseudo-inverse of a `1 × 1` rational matrix (in `ℚ`,
`0⁻¹ = 0`, which is exactly the pseudo-inverse of the zero matrix). -/
def pinvOne (M : Matrix (Fin 1) (Fin 1) ℚ) : Matrix (Fin 1) (Fin 1) ℚ :=
  Matrix.of fun _ _ => (M 0 0)⁻¹

/-- The scalar instance of spec §8: `n = m = 1`, `A = B = Q = R = Qf = [1]`,
`T = 1`, `current_state = [5]`. -/
def scalarData : LqrData 1 1 :=
  { pinv := pinvOne
    Q := Matrix.of fun _ _ => 1
    R := Matrix.of fun _ _ => 1
    A := Matrix.of fun _ _ => 1
    B := Matrix.of fun _ _ => 1
    Qf := Matrix.of fun _ _ => 1
    T := 1
    x0 := fun _ => 5 }

/-- The scalar instance with a zero action-transition matrix. -/
def zeroBData : LqrData 1 1 :=
  { scalarData with B := 0 }

/-- Concrete `current_state` argument `np.array([5.0])`. -/
def vecArr5 : PyObj := .ndarray ⟨[1], [5]⟩

/-- Concrete `1 × 1` identity matrix argument `np.array([[1.0]])`. -/
def oneArr : PyObj := .ndarray ⟨[1, 1], [1]⟩

/-- Concrete `2 × 2` identity matrix argument `np.eye(2)`. -/
def eyeArr2 : PyObj := .ndarray ⟨[2, 2], [1, 0, 0, 1]⟩

theorem spsd_one : is_mat_spsd ⟨[1, 1], [1]⟩ = true := by
  norm_num [is_mat_spsd, NDArray.isSymmetric, NDArray.rows, NDArray.entry, NDArray.ndim,
    indexSubsets, detL, detFuel, submatrixL, List.range_succ]

theorem spd_one : is_mat_spd ⟨[1, 1], [1]⟩ = true := by
  norm_num [is_mat_spd, NDArray.isSymmetric, NDArray.rows, NDArray.entry, NDArray.ndim,
    detL, detFuel, submatrixL, List.range_succ]

theorem spd_eye2 : is_mat_spd ⟨[2, 2], [1, 0, 0, 1]⟩ = true := by
  norm_num [is_mat_spd, NDArray.isSymmetric, NDArray.rows, NDArray.entry, NDArray.ndim,
    detL, detFuel, submatrixL, List.range_succ]

/-- The validator accepts the all-`[[1]]` scalar problem. -/
theorem validateArrays_ones :
    validateArrays vecArr5 oneArr oneArr oneArr oneArr = Except.ok 1 := by
  norm_num [validateArrays, vecArr5, oneArr, PyObj.toArr, PyObj.isNDArray,
    NDArray.ndim, spsd_one, spd_one]

/-- The validator accepts a `2 × 2` `action_cost_mat` together with a `1 × 1`
`action_transition_mat` (their dimensions are never compared). -/
theorem validateArrays_mixed :
    validateArrays vecArr5 oneArr eyeArr2 oneArr oneArr = Except.ok 1 := by
  norm_num [validateArrays, vecArr5, oneArr, eyeArr2, PyObj.toArr, PyObj.isNDArray,
    NDArray.ndim, spsd_one, spd_eye2]

/-- Every `1 × 1` matrix is symmetric. -/
theorem transpose_fin_one (M : Matrix (Fin 1) (Fin 1) ℚ) : M.transpose = M := by
  ext i j
  fin_cases i
  fin_cases j
  rfl

/-- The map `pinvOne` satisfies the four Penrose conditions, so it is the
Moore-Penrose pseudo-inverse on `1 × 1` rational matrices. -/
theorem pinvOne_moorePenrose (M : Matrix (Fin 1) (Fin 1) ℚ) :
    IsMoorePenrosePinv M (pinvOne M) := by
  have hmul : ∀ N N' : Matrix (Fin 1) (Fin 1) ℚ, N * N' = Matrix.of fun _ _ => N 0 0 * N' 0 0 := by
    intro N N'
    ext i j
    fin_cases i
    fin_cases j
    simp [Matrix.mul_apply, Fin.sum_univ_one]
  refine ⟨?_, ?_, transpose_fin_one _, transpose_fin_one _⟩
  · ext i j
    fin_cases i
    fin_cases j
    rcases eq_or_ne (M 0 0) 0 with h | h
    all_goals simp [hmul, pinvOne, h]
  · ext i j
    fin_cases i
    fin_cases j
    rcases eq_or_ne (M 0 0) 0 with h | h
    all_goals simp [hmul, pinvOne, h]

/-- A matrix accepted by the (spec-modelled) symmetric-PSD check is
2-dimensional and square. -/
theorem is_mat_spsd_square {a : NDArray} (h : is_mat_spsd a = true) :
    a.ndim = 2 ∧ a.shape.getD 0 0 = a.shape.getD 1 0 := by
  simp only [is_mat_spsd, Bool.and_eq_true, beq_iff_eq] at h
  exact ⟨h.1.1.1, h.1.1.2⟩

/-- C1: for every validated input, the cost-to-go sequence computed by
`linear_quadratic_regulator` satisfies `P_T = Qf` and, for `t = T` down to
`1`, `P_{t-1} = Q + Aᵀ P_t A − (Aᵀ P_t B) (R + Bᵀ P_t B)⁺ (Bᵀ P_t A)`, where
`(·)⁺` is the Moore-Penrose pseudo-inverse (modelled as the total function
`d.pinv`, assumed to satisfy the Penrose conditions), so each step is defined
even when `R + Bᵀ P_t B` is singular. -/
theorem C1_riccati_recursion {n m : ℕ} (d : LqrData n m)
    (hpinv : ∀ M : Matrix (Fin m) (Fin m) ℚ, IsMoorePenrosePinv M (d.pinv M)) :
    d.costToGo d.T = d.Qf ∧
      ∀ t : ℕ, 1 ≤ t → t ≤ d.T →
        d.costToGo (t - 1) =
          d.Q + d.A.transpose * d.costToGo t * d.A -
            (d.A.transpose * d.costToGo t * d.B) *
              d.pinv (d.R + d.B.transpose * d.costToGo t * d.B) *
              (d.B.transpose * d.costToGo t * d.A) := by
  constructor
  · show d.below (d.T - d.T) = d.Qf
    rw [Nat.sub_self]
    rfl
  · intro t h1 hT
    have harith : d.T - (t - 1) = (d.T - t) + 1 := by omega
    show d.below (d.T - (t - 1)) = _
    rw [harith]
    rfl

/-- C1 witness: the Penrose hypothesis holds for the pseudo-inverse of the
scalar instance, and there the terminal identity is concrete. -/
theorem C1_riccati_recursion_witness :
    (∀ M : Matrix (Fin 1) (Fin 1) ℚ, IsMoorePenrosePinv M (scalarData.pinv M)) ∧
      scalarData.costToGo scalarData.T = scalarData.Qf :=
  ⟨fun M => pinvOne_moorePenrose M,
    (C1_riccati_recursion scalarData fun M => pinvOne_moorePenrose M).1⟩

/-- C2: the forward rollout computes `x_0 = current_state`,
`K_t = −(R + Bᵀ P_{t+1} B)⁺ · (Bᵀ P_{t+1} A)`, `u_t = K_t x_t`,
`x_{t+1} = A x_t + B u_t`, and returns `[u_0, ..., u_{T-1}]`; on the scalar
instance (`n = m = 1`, `A = B = Q = R = Qf = [1]`, `T = 1`,
`current_state = [5]`) the returned sequence is exactly `[[-5/2]]`
(`-2.5`). -/
theorem C2_forward_rollout :
    (∀ (n m : ℕ) (d : LqrData n m),
      d.state 0 = d.x0 ∧
      (∀ t, d.gain t =
        -(d.pinv (d.R + d.B.transpose * d.costToGo (t + 1) * d.B) *
          (d.B.transpose * d.costToGo (t + 1) * d.A))) ∧
      (∀ t, d.action t = (d.gain t).mulVec (d.state t)) ∧
      (∀ t, d.state (t + 1) = d.A.mulVec (d.state t) + d.B.mulVec (d.action t)) ∧
      d.actions = (List.range d.T).map d.action) ∧
    scalarData.actionsL = [[-(5 / 2)]] := by
  constructor
  · intro n m d
    refine ⟨rfl, fun t => ?_, fun t => rfl, fun t => rfl, rfl⟩
    simp only [LqrData.gain, Matrix.neg_mul, Matrix.mul_assoc]
  · norm_num [LqrData.actionsL, LqrData.action, LqrData.gain, LqrData.state,
      LqrData.costToGo, LqrData.below, scalarData, pinvOne, Matrix.mulVec,
      Matrix.mul_apply, Matrix.dotProduct, Fin.sum_univ_one, List.range_succ,
      Matrix.transpose_apply, Matrix.one_apply_eq, Matrix.add_apply, Matrix.neg_apply,
      Matrix.of_apply, Pi.add_apply]

/-- C4: for every problem, the returned list has length exactly
`time_horizon`, and each element is a control vector of length `m`. -/
theorem C4_output_shape (n m : ℕ) (d : LqrData n m) :
    d.actionsL.length = d.T ∧ ∀ u, u ∈ d.actionsL → u.length = m := by
  constructor
  · simp [LqrData.actionsL]
  · intro u hu
    simp only [LqrData.actionsL, List.mem_map] at hu
    obtain ⟨t, -, rfl⟩ := hu
    simp

/-- C4 witness: the single action of the scalar instance is a member of the output
and has length 1. -/
theorem C4_output_shape_witness :
    List.ofFn (scalarData.action 0) ∈ scalarData.actionsL ∧
      (List.ofFn (scalarData.action 0)).length = 1 :=
  have hm : List.ofFn (scalarData.action 0) ∈ scalarData.actionsL := by
    simp [LqrData.actionsL, scalarData]
  ⟨hm, (C4_output_shape 1 1 scalarData).2 _ hm⟩

/-- C5: the cost-to-go entry at index `T` equals the supplied
`final_state_cost_mat` bit-for-bit (no recursion step is applied to it), and
when `final_state_cost_mat` is `None` it is taken to be `state_cost_mat`. -/
theorem C5_terminal_cost :
    (∀ (n m : ℕ) (d : LqrData n m), d.costToGo d.T = d.Qf) ∧
      ∀ (k : ℕ) (q : PyObj), resolveFinalCost k q none = Except.ok q.toArr := by
  constructor
  · intro n m d
    show d.below (d.T - d.T) = d.Qf
    rw [Nat.sub_self]
    rfl
  · intro k q
    rfl

/-- C7: if `action_transition_mat` is the zero matrix, no error is raised
(the model is total), every gain `K_t` is zero, every control `u_t` is zero,
and the predicted trajectory satisfies `x_{t+1} = A x_t`. -/
theorem C7_zero_action_matrix {n m : ℕ} (d : LqrData n m) (hB : d.B = 0) :
    (∀ t, d.gain t = 0) ∧ (∀ t, d.action t = 0) ∧
      ∀ t, d.state (t + 1) = d.A.mulVec (d.state t) := by
  have hg : ∀ t, d.gain t = 0 := by
    intro t
    unfold LqrData.gain
    rw [hB]
    simp
  refine ⟨hg, fun t => ?_, fun t => ?_⟩
  · unfold LqrData.action
    rw [hg]
    simp
  · show d.A.mulVec (d.state t) + d.B.mulVec ((d.gain t).mulVec (d.state t)) = _
    rw [hB]
    simp

/-- C7 witness: the scalar instance with `B = 0` has zero gain, zero action,
and uncontrolled dynamics at step 0. -/
theorem C7_zero_action_matrix_witness :
    zeroBData.B = 0 ∧ zeroBData.gain 0 = 0 ∧ zeroBData.action 0 = 0 ∧
      zeroBData.state 1 = zeroBData.A.mulVec (zeroBData.state 0) :=
  have hB : zeroBData.B = 0 := rfl
  ⟨hB, (C7_zero_action_matrix zeroBData hB).1 0,
    (C7_zero_action_matrix zeroBData hB).2.1 0,
    (C7_zero_action_matrix zeroBData hB).2.2 0⟩

/-- C9: two invocations that differ only in `target_state` return identical
results — the parameter is never read, and the regulation objective drives
the state toward the origin. -/
theorem C9_target_state_ignored
    (pinv : (k : ℕ) → Matrix (Fin k) (Fin k) ℚ → Matrix (Fin k) (Fin k) ℚ)
    (cs ts ts' Q R A B : PyObj) (th : PyVal) (qf : Option PyObj) :
    linear_quadratic_regulator pinv cs ts Q R A B th qf =
      linear_quadratic_regulator pinv cs ts' Q R A B th qf := rfl

/-- C6: for all validated inputs (symmetric `Q`, `R`, `Qf`, and a
pseudo-inverse that maps symmetric matrices to symmetric matrices, as the
Moore-Penrose pseudo-inverse does), every computed cost-to-go matrix
`P_0 ... P_T` is symmetric: symmetry is preserved by every step of the
backward recursion, not merely assumed of the inputs. -/
theorem C6_symmetry_invariant {n m : ℕ} (d : LqrData n m)
    (hpinv : ∀ M : Matrix (Fin m) (Fin m) ℚ,
      M.transpose = M → (d.pinv M).transpose = d.pinv M)
    (hQ : d.Q.transpose = d.Q) (hR : d.R.transpose = d.R)
    (hQf : d.Qf.transpose = d.Qf) :
    ∀ t : ℕ, (d.costToGo t).transpose = d.costToGo t := by
  have hstep : ∀ P : Matrix (Fin n) (Fin n) ℚ, P.transpose = P →
      (d.riccatiStep P).transpose = d.riccatiStep P := by
    intro P hP
    have hS : (d.R + d.B.transpose * P * d.B).transpose =
        d.R + d.B.transpose * P * d.B := by
      rw [Matrix.transpose_add, hR, Matrix.transpose_mul, Matrix.transpose_mul,
        Matrix.transpose_transpose, hP, Matrix.mul_assoc]
    have hSp := hpinv _ hS
    have hXY : (d.A.transpose * P * d.B).transpose = d.B.transpose * P * d.A := by
      rw [Matrix.transpose_mul, Matrix.transpose_mul, Matrix.transpose_transpose,
        hP, Matrix.mul_assoc]
    have hYX : (d.B.transpose * P * d.A).transpose = d.A.transpose * P * d.B := by
      rw [Matrix.transpose_mul, Matrix.transpose_mul, Matrix.transpose_transpose,
        hP, Matrix.mul_assoc]
    have hAPA : (d.A.transpose * P * d.A).transpose = d.A.transpose * P * d.A := by
      rw [Matrix.transpose_mul, Matrix.transpose_mul, Matrix.transpose_transpose,
        hP, Matrix.mul_assoc]
    unfold LqrData.riccatiStep
    rw [Matrix.transpose_sub, Matrix.transpose_add, hQ, hAPA,
      Matrix.transpose_mul, hYX, Matrix.transpose_mul, hSp, hXY,
      ← Matrix.mul_assoc]
  have hbelow : ∀ k : ℕ, (d.below k).transpose = d.below k := by
    intro k
    induction k with
    | zero => exact hQf
    | succ k ih => exact hstep _ ih
  intro t
  exact hbelow _

/-- C6 witness: on the scalar instance every hypothesis holds (all `1 × 1`
matrices are symmetric) and `P_0` is symmetric. -/
theorem C6_symmetry_invariant_witness :
    (∀ M : Matrix (Fin 1) (Fin 1) ℚ,
      M.transpose = M → (scalarData.pinv M).transpose = scalarData.pinv M) ∧
    scalarData.Q.transpose = scalarData.Q ∧
    scalarData.R.transpose = scalarData.R ∧
    scalarData.Qf.transpose = scalarData.Qf ∧
    (scalarData.costToGo 0).transpose = scalarData.costToGo 0 :=
  ⟨fun M _ => transpose_fin_one _, transpose_fin_one _, transpose_fin_one _,
    transpose_fin_one _,
    C6_symmetry_invariant scalarData (fun M _ => transpose_fin_one _)
      (transpose_fin_one _) (transpose_fin_one _) (transpose_fin_one _) 0⟩

/-- C3 counterexample: an `action_cost_mat` of dimension 2 together with an
`action_transition_mat` with 1 column (a dimension-inconsistent pair) passes
validation — `validateArrays` returns success, so no ShapeMismatch error is
raised during validation. -/
theorem C3_counterexample :
    validateArrays vecArr5 oneArr eyeArr2 oneArr oneArr = Except.ok 1 ∧
      eyeArr2.toArr.shape.getD 0 0 = 2 ∧ oneArr.toArr.shape.getD 1 0 = 1 := by
  refine ⟨validateArrays_mixed, ?_, ?_⟩ <;> norm_num [eyeArr2, oneArr, PyObj.toArr]

/-- C3 (amended): validation enforces the shape relations among
`current_state`, `state_cost_mat`, `state_transition_mat`, the row dimension
of `action_transition_mat`, and `final_state_cost_mat` — but the dimension of
`action_cost_mat` is never compared with the column count of
`action_transition_mat`, so that mismatch is not rejected at validation time
(see the counterexample). -/
theorem C3_enforced_shape_checks :
    (∀ (cs Q R A B : PyObj) (k : ℕ),
      validateArrays cs Q R A B = Except.ok k →
      cs.toArr.ndim = 1 ∧ k = cs.toArr.shape.getD 0 0 ∧
        Q.toArr.ndim = 2 ∧ Q.toArr.shape.getD 0 0 = k ∧ Q.toArr.shape.getD 1 0 = k ∧
        A.toArr.shape = [k, k] ∧
        B.toArr.ndim = 2 ∧ B.toArr.shape.getD 0 0 = k) ∧
    ∀ (k : ℕ) (q f : PyObj) (qf : NDArray),
      resolveFinalCost k q (some f) = Except.ok qf →
      f.toArr.ndim = 2 ∧ f.toArr.shape.getD 0 0 = k ∧ qf = f.toArr := by
  constructor
  · intro cs Q R A B k h
    unfold validateArrays at h
    by_cases hc1 : (!cs.isNDArray) = true
    · rw [if_pos hc1] at h
      exact absurd h (by simp)
    rw [if_neg hc1] at h
    by_cases hc2 : cs.toArr.ndim ≠ 1
    · rw [if_pos hc2] at h
      exact absurd h (by simp)
    rw [if_neg hc2] at h
    by_cases hc3 : (!Q.isNDArray) = true
    · rw [if_pos hc3] at h
      exact absurd h (by simp)
    rw [if_neg hc3] at h
    by_cases hc4 : (!is_mat_spsd Q.toArr) = true
    · rw [if_pos hc4] at h
      exact absurd h (by simp)
    rw [if_neg hc4] at h
    by_cases hc5 : Q.toArr.ndim ≠ 2 ∨ Q.toArr.shape.getD 0 0 ≠ cs.toArr.shape.getD 0 0
    · rw [if_pos hc5] at h
      exact absurd h (by simp)
    rw [if_neg hc5] at h
    by_cases hc6 : (!R.isNDArray) = true
    · rw [if_pos hc6] at h
      exact absurd h (by simp)
    rw [if_neg hc6] at h
    by_cases hc7 : (!is_mat_spd R.toArr) = true
    · rw [if_pos hc7] at h
      exact absurd h (by simp)
    rw [if_neg hc7] at h
    by_cases hc8 : (!A.isNDArray) = true
    · rw [if_pos hc8] at h
      exact absurd h (by simp)
    rw [if_neg hc8] at h
    by_cases hc9 : A.toArr.shape ≠ [cs.toArr.shape.getD 0 0, cs.toArr.shape.getD 0 0]
    · rw [if_pos hc9] at h
      exact absurd h (by simp)
    rw [if_neg hc9] at h
    by_cases hc10 : (!B.isNDArray) = true
    · rw [if_pos hc10] at h
      exact absurd h (by simp)
    rw [if_neg hc10] at h
    by_cases hc11 : B.toArr.shape.getD 0 0 ≠ cs.toArr.shape.getD 0 0 ∨ B.toArr.ndim ≠ 2
    · rw [if_pos hc11] at h
      exact absurd h (by simp)
    rw [if_neg hc11] at h
    injection h with hk
    subst hk
    have hq4 : is_mat_spsd Q.toArr = true := by simpa using hc4
    obtain ⟨hq1, hq2⟩ := is_mat_spsd_square hq4
    rw [not_not] at hc2 hc9
    push_neg at hc5 hc11
    exact ⟨hc2, rfl, hc5.1, hc5.2, by rw [← hq2, hc5.2], hc9, hc11.2, hc11.1⟩
  · intro k q f qf h
    rw [show resolveFinalCost k q (some f) =
        (if !f.isNDArray then Except.error LqrError.finalCostType
         else if !is_mat_spsd f.toArr then Except.error .finalCostNotSpsd
         else if f.toArr.ndim ≠ 2 ∨ f.toArr.shape.getD 0 0 ≠ k then
           Except.error .finalCostShape
         else Except.ok f.toArr) from rfl] at h
    by_cases hc1 : (!f.isNDArray) = true
    · rw [if_pos hc1] at h
      exact absurd h (by simp)
    rw [if_neg hc1] at h
    by_cases hc2 : (!is_mat_spsd f.toArr) = true
    · rw [if_pos hc2] at h
      exact absurd h (by simp)
    rw [if_neg hc2] at h
    by_cases hc3 : f.toArr.ndim ≠ 2 ∨ f.toArr.shape.getD 0 0 ≠ k
    · rw [if_pos hc3] at h
      exact absurd h (by simp)
    rw [if_neg hc3] at h
    injection h with hq
    push_neg at hc3
    exact ⟨hc3.1, hc3.2, hq.symm⟩

/-- C3 witness: the amended theorem applied to the accepted all-`[[1]]`
inputs, and to a supplied final-state cost matrix. -/
theorem C3_enforced_shape_checks_witness :
    validateArrays vecArr5 oneArr oneArr oneArr oneArr = Except.ok 1 ∧
      oneArr.toArr.ndim = 2 ∧ oneArr.toArr.shape.getD 0 0 = 1 :=
  have h := (C3_enforced_shape_checks).1 vecArr5 oneArr oneArr oneArr oneArr 1
    validateArrays_ones
  ⟨validateArrays_ones, h.2.2.1, h.2.2.2.1⟩

/-- C8: when the earlier array checks pass and `time_horizon` is an `int`
that is zero or negative, `linear_quadratic_regulator` raises the
InvalidHorizon error (the ValueError stating that `time_horizon` must be
positive) during
validation and produces no output. -/
theorem C8_invalid_horizon
    (pinv : (k : ℕ) → Matrix (Fin k) (Fin k) ℚ → Matrix (Fin k) (Fin k) ℚ)
    (cs ts Q R A B : PyObj) (qf : Option PyObj) (th : PyVal) (k : ℕ)
    (hA : validateArrays cs Q R A B = Except.ok k)
    (hint : th.isInt = true) (hle : th.toInt ≤ 0) :
    linear_quadratic_regulator pinv cs ts Q R A B th qf =
      Except.error LqrError.horizonNotPositive := by
  have hch : checkHorizon th = Except.error .horizonNotPositive := by
    unfold checkHorizon
    rw [hint]
    simp [hle]
  simp only [linear_quadratic_regulator, validate, hA, hch]

/-- C8 witness: the all-`[[1]]` problem with `time_horizon = 0` errors with
InvalidHorizon. -/
theorem C8_invalid_horizon_witness :
    validateArrays vecArr5 oneArr oneArr oneArr oneArr = Except.ok 1 ∧
      (PyVal.pyInt 0).isInt = true ∧ (PyVal.pyInt 0).toInt ≤ 0 ∧
      linear_quadratic_regulator (fun _ M => M) vecArr5 vecArr5 oneArr oneArr
        oneArr oneArr (.pyInt 0) none = Except.error LqrError.horizonNotPositive :=
  ⟨validateArrays_ones, rfl, by norm_num [PyVal.toInt],
    C8_invalid_horizon (fun _ M => M) vecArr5 vecArr5 oneArr oneArr oneArr oneArr
      none (.pyInt 0) 1 validateArrays_ones rfl (by norm_num [PyVal.toInt])⟩

/-- A concrete full run through the pipeline: the all-`[[1]]` problem with
`time_horizon = True` and `pinv` the identity function returns `[[-10]]`. -/
theorem lqr_ones_run :
    linear_quadratic_regulator (fun _ M => M) vecArr5 vecArr5 oneArr oneArr
      oneArr oneArr (.pyBool true) none = Except.ok [[-10]] := by
  have hv : validate vecArr5 oneArr oneArr oneArr oneArr (.pyBool true) none =
      Except.ok (1, 1, oneArr.toArr) := by
    unfold validate
    rw [validateArrays_ones]
    rfl
  simp only [linear_quadratic_regulator, hv]
  norm_num [LqrData.actionsL, LqrData.action, LqrData.gain, LqrData.state,
    LqrData.costToGo, LqrData.below, LqrData.riccatiStep, NDArray.toMat,
    NDArray.toVec, NDArray.entry, oneArr, vecArr5, PyObj.toArr, Matrix.mulVec,
    Matrix.mul_apply, Matrix.dotProduct, Fin.sum_univ_one, List.range_succ,
    Matrix.transpose_apply, Matrix.add_apply, Matrix.neg_apply,
    Matrix.of_apply, Pi.add_apply]

/-- C10: the `time_horizon` check accepts exactly the Python built-in `int`:
a Python `bool` passes (`time_horizon = True` behaves as horizon 1 and yields
a length-1 output), while a numpy integer scalar is rejected with a type
error even when its value is a positive integer. -/
theorem C10_horizon_exact_int :
    (∀ (pinv : (k : ℕ) → Matrix (Fin k) (Fin k) ℚ → Matrix (Fin k) (Fin k) ℚ)
        (cs ts Q R A B : PyObj) (qf : Option PyObj),
      linear_quadratic_regulator pinv cs ts Q R A B (.pyBool true) qf =
        linear_quadratic_regulator pinv cs ts Q R A B (.pyInt 1) qf) ∧
    (∀ (pinv : (k : ℕ) → Matrix (Fin k) (Fin k) ℚ → Matrix (Fin k) (Fin k) ℚ)
        (cs ts Q R A B : PyObj) (qf : Option PyObj) (out : List (List ℚ)),
      linear_quadratic_regulator pinv cs ts Q R A B (.pyBool true) qf =
        Except.ok out → out.length = 1) ∧
    ∀ (pinv : (k : ℕ) → Matrix (Fin k) (Fin k) ℚ → Matrix (Fin k) (Fin k) ℚ)
        (cs ts Q R A B : PyObj) (qf : Option PyObj) (z : ℤ) (k : ℕ),
      validateArrays cs Q R A B = Except.ok k →
      linear_quadratic_regulator pinv cs ts Q R A B (.npInt64 z) qf =
        Except.error LqrError.horizonType := by
  refine ⟨fun pinv cs ts Q R A B qf => rfl, ?_, ?_⟩
  · intro pinv cs ts Q R A B qf out h
    unfold linear_quadratic_regulator validate at h
    cases hA : validateArrays cs Q R A B with
    | error e =>
        rw [hA] at h
        exact absurd h (by simp)
    | ok k =>
        cases hq : resolveFinalCost k Q qf with
        | error e =>
            simp only [hA, show checkHorizon (PyVal.pyBool true) = Except.ok 1 from rfl,
              hq] at h
            exact absurd h (by simp)
        | ok qa =>
            simp only [hA, show checkHorizon (PyVal.pyBool true) = Except.ok 1 from rfl,
              hq] at h
            injection h with hout
            subst hout
            simp [LqrData.actionsL]
  · intro pinv cs ts Q R A B qf z k hA
    have hch : checkHorizon (.npInt64 z) = Except.error .horizonType := rfl
    simp only [linear_quadratic_regulator, validate, hA, hch]

/-- C10 witness: a concrete run with `time_horizon = True` succeeds with a
length-1 output, and the same problem with `numpy.int64(5)` errors with a
type error. -/
theorem C10_horizon_exact_int_witness :
    linear_quadratic_regulator (fun _ M => M) vecArr5 vecArr5 oneArr oneArr
        oneArr oneArr (.pyBool true) none = Except.ok [[-10]] ∧
      ([[-10]] : List (List ℚ)).length = 1 ∧
      validateArrays vecArr5 oneArr oneArr oneArr oneArr = Except.ok 1 ∧
      linear_quadratic_regulator (fun _ M => M) vecArr5 vecArr5 oneArr oneArr
        oneArr oneArr (.npInt64 5) none = Except.error LqrError.horizonType :=
  ⟨lqr_ones_run,
    (C10_horizon_exact_int).2.1 (fun _ M => M) vecArr5 vecArr5 oneArr oneArr
      oneArr oneArr none [[-10]] lqr_ones_run,
    validateArrays_ones,
    (C10_horizon_exact_int).2.2 (fun _ M => M) vecArr5 vecArr5 oneArr oneArr
      oneArr oneArr none 5 1 validateArrays_ones⟩

end EpytControl
